import Mathlib

/-!
# Royal Stay Hotel Management System — Room Availability & Booking Lifecycle

A shallow embedding of the core subsystem (`room.py`, `booking.py`, `guest.py`):
the per-room ledger of accepted `(check_in, check_out)` half-open date
intervals, and the booking aggregate with its derived total cost and
confirm/cancel lifecycle.

Modelling choices:
* Dates are whole days, modelled as `Int`; `(check_out - check_in).days`
  becomes plain integer subtraction.
* Nightly prices and costs are `ℚ` (the spec's non-negative decimals).
* Python exceptions become `Except HotelError`; the distinct `ValueError`
  messages of the source map to the spec's error taxonomy.
* Mutation becomes explicit state passing: an operation that mutates an
  object returns the updated value, and an operation that raises returns
  `.error e` producing no updated state (the caller keeps the old value,
  which is exactly the source's behaviour of raising before any mutation).
-/

/-- The error taxonomy of the spec, covering the `ValueError`s the source
raises: invalid date range, room unavailable (carrying the room number),
and confirming an empty booking. -/
inductive HotelError where
  | invalidRange : HotelError
  | roomUnavailable : Nat → HotelError
  | emptyBooking : HotelError
deriving DecidableEq, Repr

instance {ε α : Type} [DecidableEq ε] [DecidableEq α] : DecidableEq (Except ε α) :=
  fun a b =>
    match a, b with
    | .error x, .error y =>
      if h : x = y then isTrue (by rw [h])
      else isFalse fun hc => h (by cases hc; rfl)
    | .error _, .ok _ => isFalse fun hc => Except.noConfusion hc
    | .ok _, .error _ => isFalse fun hc => Except.noConfusion hc
    | .ok x, .ok y =>
      if h : x = y then isTrue (by rw [h])
      else isFalse fun hc => h (by cases hc; rfl)

/-- `Room` from `room.py`: room number, nightly price, and the private list
of accepted `(check_in, check_out)` interval tuples (`_bookings`). The purely
display-oriented fields (`_room_type`, `_amenities`, `_is_available`) play no
role in the availability logic and are omitted. -/
structure Room where
  room_number : Nat
  price_per_night : ℚ
  bookings : List (Int × Int)
deriving DecidableEq, Repr

/-- `Room.__init__`: a fresh room starts with an empty interval list. -/
def Room.init (n : Nat) (price : ℚ) : Room :=
  { room_number := n, price_per_night := price, bookings := [] }

/-- `Room.check_availability`: raises on `check_in >= check_out`, else scans
the interval list and returns `False` on the first stored interval with
`check_in < stored_out and check_out > stored_in`, `True` if none matches. -/
def Room.check_availability (r : Room) (check_in check_out : Int) :
    Except HotelError Bool :=
  if check_in ≥ check_out then
    .error .invalidRange
  else
    .ok (! r.bookings.any fun p => decide (check_in < p.2) && decide (check_out > p.1))

/-- `Room.add_booking`: re-checks availability (propagating its range error),
raises `roomUnavailable` when the check returns `False`, otherwise appends
the requested interval and returns `True`. -/
def Room.add_booking (r : Room) (check_in check_out : Int) :
    Except HotelError (Room × Bool) :=
  match r.check_availability check_in check_out with
  | .error e => .error e
  | .ok false => .error (.roomUnavailable r.room_number)
  | .ok true => .ok ({ r with bookings := r.bookings ++ [(check_in, check_out)] }, true)

/-- `Guest` from `guest.py`: only the reservation history matters to the
booking lifecycle; entries record the booking ids appended by
`add_reservation`. -/
structure Guest where
  reservations : List Nat
deriving DecidableEq, Repr

/-- `Booking` from `booking.py`: id, attached rooms, date interval, derived
total cost, and the two lifecycle flags. The guest is passed explicitly to
the operations that touch it rather than stored as a back-reference. -/
structure Booking where
  booking_id : Nat
  rooms : List Room
  check_in_date : Int
  check_out_date : Int
  total_cost : ℚ
  is_confirmed : Bool
  is_canceled : Bool
deriving DecidableEq, Repr

/-- `Booking.__init__`: no rooms, zero cost, both flags clear. -/
def Booking.init (id : Nat) (check_in check_out : Int) : Booking :=
  { booking_id := id, rooms := [], check_in_date := check_in,
    check_out_date := check_out, total_cost := 0,
    is_confirmed := false, is_canceled := false }

/-- `Guest.add_reservation`: unconditionally appends the booking to the
guest's reservation list and returns `True`. -/
def Guest.add_reservation (g : Guest) (b : Booking) : Guest × Bool :=
  ({ g with reservations := g.reservations ++ [b.booking_id] }, true)

/-- `Booking._update_total_cost`: `nights = (check_out - check_in).days`,
total cost = `sum(room.price_per_night * nights for room in rooms)`. -/
def Booking.update_total_cost (b : Booking) : Booking :=
  let nights : Int := b.check_out_date - b.check_in_date
  { b with total_cost :=
      (b.rooms.map fun room => room.price_per_night * (nights : ℚ)).sum }

/-- `Booking.add_room`: checks the room's availability for the booking's
dates (propagating a range error), raises `roomUnavailable` if unavailable,
otherwise records the interval in the room via `add_booking`, appends the
room to the aggregate's list and recomputes the total cost. -/
def Booking.add_room (b : Booking) (room : Room) :
    Except HotelError (Booking × Room) :=
  match room.check_availability b.check_in_date b.check_out_date with
  | .error e => .error e
  | .ok false => .error (.roomUnavailable room.room_number)
  | .ok true =>
    match room.add_booking b.check_in_date b.check_out_date with
    | .error e => .error e
    | .ok (room', _) =>
      .ok (Booking.update_total_cost { b with rooms := b.rooms ++ [room'] }, room')

/-- `Booking.remove_room`: if the room is in the list, removes its first
occurrence, recomputes the cost and returns `True`; otherwise returns
`False` without mutating anything. -/
def Booking.remove_room (b : Booking) (room : Room) : Booking × Bool :=
  if room ∈ b.rooms then
    (Booking.update_total_cost { b with rooms := b.rooms.erase room }, true)
  else
    (b, false)

/-- `Booking.create_booking`: raises `emptyBooking` when no rooms are
attached; otherwise sets the confirmed flag, registers the booking in the
guest's reservation history and returns `True`. -/
def Booking.create_booking (b : Booking) (g : Guest) :
    Except HotelError (Booking × Guest × Bool) :=
  if b.rooms.isEmpty then
    .error .emptyBooking
  else
    let b' := { b with is_confirmed := true }
    .ok (b', (g.add_reservation b').1, true)

/-- `Booking.cancel_booking`: returns `False` leaving everything untouched
when already canceled; otherwise sets the canceled flag, clears the
confirmed flag and returns `True`. -/
def Booking.cancel_booking (b : Booking) : Booking × Bool :=
  if b.is_canceled then
    (b, false)
  else
    ({ b with is_canceled := true, is_confirmed := false }, true)

/-- `Booking.calculate_total`: recomputes the total cost and returns it. -/
def Booking.calculate_total (b : Booking) : Booking × ℚ :=
  let b' := b.update_total_cost
  (b', b'.total_cost)

/-- The cost invariant of the spec: total cost equals
`nights * sum(price_per_night)` over the currently attached rooms. -/
def cost_invariant (b : Booking) : Prop :=
  b.total_cost =
    ((b.check_out_date - b.check_in_date : Int) : ℚ) *
      (b.rooms.map Room.price_per_night).sum

instance (b : Booking) : Decidable (cost_invariant b) := by
  unfold cost_invariant; infer_instance

/-- The ledger invariant of the spec: no two stored intervals of a room
overlap under the half-open test. -/
def bookings_disjoint (l : List (Int × Int)) : Prop :=
  l.Pairwise fun p q => ¬(p.1 < q.2 ∧ q.1 < p.2)

instance (l : List (Int × Int)) : Decidable (bookings_disjoint l) := by
  unfold bookings_disjoint; infer_instance

-- Concrete scenario values (spec §8): a $150/night room, a 3-night stay
-- over days [5, 8).
def room150 : Room := Room.init 101 150

def bkg58 : Booking := Booking.init 1 5 8

def room150r : Room :=
  { room_number := 101, price_per_night := 150, bookings := [(5, 8)] }

def bkg58r : Booking :=
  { booking_id := 1, rooms := [room150r], check_in_date := 5,
    check_out_date := 8, total_cost := 450,
    is_confirmed := false, is_canceled := false }

example : bkg58.add_room room150 = .ok (bkg58r, room150r) := by with_unfolding_all rfl

example : room150r.check_availability 8 10 = .ok true := by rfl

example : room150r.check_availability 7 10 = .ok false := by rfl

/-! ## Helper lemmas shared by the claim theorems -/

lemma check_availability_of_lt (r : Room) (ci co : Int) (h : ci < co) :
    r.check_availability ci co =
      .ok (! r.bookings.any fun p => decide (ci < p.2) && decide (co > p.1)) := by
  simp [Room.check_availability, not_le.mpr h]

lemma check_availability_false_iff (r : Room) (ci co : Int) (h : ci < co) :
    r.check_availability ci co = .ok false ↔
      ∃ p ∈ r.bookings, ci < p.2 ∧ co > p.1 := by
  rw [check_availability_of_lt r ci co h]
  simp [List.any_eq_true]

lemma check_availability_true_iff (r : Room) (ci co : Int) (h : ci < co) :
    r.check_availability ci co = .ok true ↔
      ∀ p ∈ r.bookings, ¬(ci < p.2 ∧ co > p.1) := by
  rw [check_availability_of_lt r ci co h]
  simp [List.any_eq_true]

lemma add_booking_ok_of_free (r : Room) (ci co : Int) (h : ci < co)
    (hfree : ∀ p ∈ r.bookings, ¬(ci < p.2 ∧ co > p.1)) :
    r.add_booking ci co =
      .ok ({ r with bookings := r.bookings ++ [(ci, co)] }, true) := by
  unfold Room.add_booking
  rw [(check_availability_true_iff r ci co h).mpr hfree]

lemma add_booking_error_of_overlap (r : Room) (ci co : Int) (h : ci < co)
    (hov : ∃ p ∈ r.bookings, ci < p.2 ∧ co > p.1) :
    r.add_booking ci co = .error (.roomUnavailable r.room_number) := by
  unfold Room.add_booking
  rw [(check_availability_false_iff r ci co h).mpr hov]

/-- C1: with a valid range (`check_in < check_out`), `check_availability`
returns `false` exactly when some stored interval `(s, e)` satisfies the
half-open overlap test `s < check_out` and `e > check_in`; it returns `true`
on an empty ledger, and returns `true` when the request merely touches a
stored interval at a boundary. -/
theorem check_availability_correct (r : Room) (ci co : Int) (h : ci < co) :
    (r.check_availability ci co = .ok false ↔
      ∃ p ∈ r.bookings, p.1 < co ∧ p.2 > ci)
    ∧ (r.bookings = [] → r.check_availability ci co = .ok true)
    ∧ (∀ s e, r.bookings = [(s, e)] → (ci = e ∨ co = s) →
        r.check_availability ci co = .ok true) := by
  refine ⟨?_, ?_, ?_⟩
  · rw [check_availability_false_iff r ci co h]
    exact ⟨fun ⟨p, hp, h1, h2⟩ => ⟨p, hp, h2, h1⟩,
           fun ⟨p, hp, h1, h2⟩ => ⟨p, hp, h2, h1⟩⟩
  · intro he
    rw [check_availability_true_iff r ci co h, he]
    simp
  · intro s e hbe hor
    rw [check_availability_true_iff r ci co h, hbe]
    rcases hor with h1 | h1 <;> subst h1 <;> simp

/-- Witness for C1: the spec scenario — a room holding `[5, 8)` is
unavailable for the overlapping `[7, 10)`, available on an empty ledger,
and available for the touching `[8, 10)`. -/
theorem check_availability_correct_witness :
    (room150r.check_availability 7 10 = .ok false ↔
      ∃ p ∈ room150r.bookings, p.1 < 10 ∧ p.2 > 7)
    ∧ room150.check_availability 7 10 = .ok true
    ∧ room150r.check_availability 8 10 = .ok true :=
  ⟨(check_availability_correct room150r 7 10 (by decide)).1,
   (check_availability_correct room150 7 10 (by decide)).2.1 (by rfl),
   (check_availability_correct room150r 8 10 (by decide)).2.2 5 8 (by rfl)
     (Or.inl (by decide))⟩

lemma sum_map_price_mul (l : List Room) (n : ℚ) :
    (l.map fun room => room.price_per_night * n).sum =
      n * (l.map Room.price_per_night).sum := by
  induction l with
  | nil => simp
  | cons head tail ih => simp [ih]; ring

lemma update_total_cost_invariant (b : Booking) :
    cost_invariant b.update_total_cost := by
  unfold cost_invariant Booking.update_total_cost
  simp [sum_map_price_mul]

lemma update_total_cost_rooms (b : Booking) :
    b.update_total_cost.rooms = b.rooms := rfl

/-- C2: the cost invariant `total_cost = nights * sum(price_per_night)` over
the currently attached rooms (with `nights = check_out - check_in`) holds
for a fresh booking, holds immediately after every successful `add_room`,
is preserved by every `remove_room`, and is (re-)established by every
`calculate_total`; moreover `calculate_total` run twice in a row with no
intervening mutation returns the same value both times. -/
theorem total_cost_correct (b : Booking) (room : Room) :
    (∀ id ci co, cost_invariant (Booking.init id ci co))
    ∧ (∀ b' r', b.add_room room = .ok (b', r') → cost_invariant b')
    ∧ (cost_invariant b → cost_invariant (b.remove_room room).1)
    ∧ cost_invariant (b.calculate_total).1
    ∧ (b.calculate_total).2 =
        ((b.check_out_date - b.check_in_date : Int) : ℚ) *
          (b.rooms.map Room.price_per_night).sum
    ∧ ((b.calculate_total).1.calculate_total).2 = (b.calculate_total).2 := by
  refine ⟨?_, ?_, ?_, ?_, ?_, ?_⟩
  · intro id ci co
    unfold cost_invariant Booking.init
    simp
  · intro b' r' h
    unfold Booking.add_room at h
    cases hc : room.check_availability b.check_in_date b.check_out_date with
    | error e => rw [hc] at h; cases h
    | ok av =>
      rw [hc] at h
      cases av with
      | false => cases h
      | true =>
        unfold Room.add_booking at h
        rw [hc] at h
        simp only [Except.ok.injEq, Prod.mk.injEq] at h
        rw [← h.1]
        exact update_total_cost_invariant _
  · intro hinv
    unfold Booking.remove_room
    split
    · exact update_total_cost_invariant _
    · exact hinv
  · exact update_total_cost_invariant _
  · have := update_total_cost_invariant b
    unfold cost_invariant at this
    exact this
  · unfold Booking.calculate_total
    unfold Booking.update_total_cost
    simp

/-- Witness for C2: the spec scenario — a 150-per-night room over the
3-night interval `[5, 8)` gives total cost `450`, the invariant holds after
the add, after a removal, and `calculate_total` twice returns `450` both
times. -/
theorem total_cost_correct_witness :
    cost_invariant bkg58r
    ∧ cost_invariant (bkg58r.remove_room room150r).1
    ∧ (bkg58r.calculate_total).2 =
        ((bkg58r.check_out_date - bkg58r.check_in_date : Int) : ℚ) *
          (bkg58r.rooms.map Room.price_per_night).sum
    ∧ ((bkg58r.calculate_total).1.calculate_total).2 = (bkg58r.calculate_total).2 :=
  ⟨(total_cost_correct bkg58 room150).2.1 bkg58r room150r
      (by with_unfolding_all rfl),
   (total_cost_correct bkg58r room150r).2.2.1
      ((total_cost_correct bkg58 room150).2.1 bkg58r room150r
        (by with_unfolding_all rfl)),
   (total_cost_correct bkg58r room150r).2.2.2.2.1,
   (total_cost_correct bkg58r room150r).2.2.2.2.2⟩

/-- C3: reservation re-checks availability inside the call — with a valid
range, `add_booking` fails with `roomUnavailable` and produces no new state
when the requested interval overlaps a stored one, and on success appends
exactly the requested interval and returns `True`; likewise the aggregate
path `add_room` fails with `roomUnavailable` producing no new state (the
caller keeps the unmodified booking and room) when the range overlaps a
stored interval of the room. -/
theorem reserve_rechecks_and_rejects (r : Room) (ci co : Int) (b : Booking)
    (room : Room) (h : ci < co) :
    ((∃ p ∈ r.bookings, p.1 < co ∧ p.2 > ci) →
      r.add_booking ci co = .error (.roomUnavailable r.room_number))
    ∧ ((∀ p ∈ r.bookings, ¬(p.1 < co ∧ p.2 > ci)) →
      r.add_booking ci co =
        .ok ({ r with bookings := r.bookings ++ [(ci, co)] }, true))
    ∧ (b.check_in_date < b.check_out_date →
      (∃ p ∈ room.bookings, p.1 < b.check_out_date ∧ p.2 > b.check_in_date) →
      b.add_room room = .error (.roomUnavailable room.room_number)) := by
  refine ⟨?_, ?_, ?_⟩
  · intro ⟨p, hp, h1, h2⟩
    exact add_booking_error_of_overlap r ci co h ⟨p, hp, h2, h1⟩
  · intro hfree
    exact add_booking_ok_of_free r ci co h
      fun p hp hcon => hfree p hp ⟨hcon.2, hcon.1⟩
  · intro hb ⟨p, hp, h1, h2⟩
    unfold Booking.add_room
    rw [(check_availability_false_iff room b.check_in_date b.check_out_date hb).mpr
      ⟨p, hp, h2, h1⟩]

/-- Witness for C3: the room holding `[5, 8)` rejects the overlapping
request `[7, 10)` (directly and through a booking aggregate for those
dates) and accepts the touching request `[8, 10)` by appending it. -/
theorem reserve_rechecks_and_rejects_witness :
    room150r.add_booking 7 10 = .error (.roomUnavailable room150r.room_number)
    ∧ room150r.add_booking 8 10 =
        .ok ({ room150r with bookings := room150r.bookings ++ [(8, 10)] }, true)
    ∧ (Booking.init 2 7 10).add_room room150r =
        .error (.roomUnavailable room150r.room_number) :=
  ⟨(reserve_rechecks_and_rejects room150r 7 10 bkg58 room150r (by decide)).1
      (by decide),
   (reserve_rechecks_and_rejects room150r 8 10 bkg58 room150r (by decide)).2.1
      (by decide),
   (reserve_rechecks_and_rejects room150r 8 10 (Booking.init 2 7 10) room150r
      (by decide)).2.2 (by decide) (by decide)⟩

/-- C4: the ledger invariant — no two stored intervals of a room overlap —
holds for a freshly constructed room (empty list) and is preserved by
`add_booking`, the only operation that ever mutates the interval list. -/
theorem bookings_disjoint_invariant (r : Room) (ci co : Int) :
    (∀ n price, bookings_disjoint (Room.init n price).bookings)
    ∧ (∀ r' t, bookings_disjoint r.bookings → r.add_booking ci co = .ok (r', t) →
        bookings_disjoint r'.bookings) := by
  constructor
  · intro n price
    simp [Room.init, bookings_disjoint]
  · intro r' t hdisj h
    unfold Room.add_booking at h
    cases hc : r.check_availability ci co with
    | error e => rw [hc] at h; cases h
    | ok av =>
      rw [hc] at h
      cases av with
      | false => cases h
      | true =>
        have hfree := (check_availability_true_iff r ci co ?hlt).mp hc
        case hlt =>
          by_contra hge
          have : ci ≥ co := not_lt.mp hge
          unfold Room.check_availability at hc
          rw [if_pos this] at hc
          cases hc
        simp only [Except.ok.injEq, Prod.mk.injEq] at h
        rw [← h.1]
        unfold bookings_disjoint at hdisj ⊢
        simp only [List.pairwise_append]
        refine ⟨hdisj, by simp, ?_⟩
        intro p hp q hq
        simp only [List.mem_singleton] at hq
        subst hq
        have := hfree p hp
        simp only [not_and] at this ⊢
        intro h1 h2
        exact this h2 h1

/-- Witness for C4: a fresh room has a disjoint (empty) ledger, and after
accepting `[5, 8)` and then the touching `[8, 10)` the ledger is still
pairwise disjoint. -/
theorem bookings_disjoint_invariant_witness :
    bookings_disjoint (Room.init 101 150).bookings
    ∧ bookings_disjoint
        ({ room150r with bookings := room150r.bookings ++ [(8, 10)] }).bookings :=
  ⟨(bookings_disjoint_invariant room150 5 8).1 101 150,
   (bookings_disjoint_invariant room150r 8 10).2
      { room150r with bookings := room150r.bookings ++ [(8, 10)] } true
      (by decide) (by rfl)⟩

-- Concrete lifecycle values: a guest with an empty history, the histories
-- after one and two confirmations of booking 1, and confirmed/canceled
-- variants of the scenario booking.
def guest0 : Guest := { reservations := [] }

def guest1 : Guest := { reservations := [1] }

def guest2 : Guest := { reservations := [1, 1] }

def bkg58c : Booking := { bkg58r with is_confirmed := true }

def bkg58x : Booking := { bkg58r with is_canceled := true }

/-- Counterexample for C5: confirming the one-room booking twice appends
two history entries for a single distinct booking — the second `confirm`
changes the guest state, so it is not a no-op re-registration, and the
history does not hold exactly one entry per distinct confirmed booking. -/
theorem create_booking_rereg_counterexample :
    bkg58r.create_booking guest0 = .ok (bkg58c, guest1, true)
    ∧ bkg58c.is_confirmed = true
    ∧ bkg58c.create_booking guest1 = .ok (bkg58c, guest2, true)
    ∧ guest2 ≠ guest1
    ∧ guest2.reservations.length = 2 :=
  ⟨by rfl, by rfl, by rfl, by decide, by rfl⟩

/-- C5 (amended): confirming a booking with at least one attached room
succeeds on every call and appends exactly one entry to the guest history
per call — so a distinct booking confirmed once contributes one entry, but
re-running confirm while already confirmed, though permitted and harmless
to the booking itself (the booking value is unchanged), appends a duplicate
history entry rather than being a no-op re-registration. -/
theorem create_booking_appends_per_call (b : Booking) (g : Guest)
    (h : b.rooms ≠ []) :
    b.create_booking g =
      .ok ({ b with is_confirmed := true },
           { g with reservations := g.reservations ++ [b.booking_id] }, true)
    ∧ (b.is_confirmed = true →
        b.create_booking g =
          .ok (b, { g with reservations := g.reservations ++ [b.booking_id] },
               true)) := by
  have hne : b.rooms.isEmpty = false := by
    cases hr : b.rooms with
    | nil => exact absurd hr h
    | cons a l => rfl
  have hmain : b.create_booking g =
      .ok ({ b with is_confirmed := true },
           { g with reservations := g.reservations ++ [b.booking_id] }, true) := by
    unfold Booking.create_booking Guest.add_reservation
    rw [hne]
    rfl
  refine ⟨hmain, fun hconf => ?_⟩
  have hb : { b with is_confirmed := true } = b := by
    cases b
    simp_all
  rw [hmain, hb]

/-- Witness for C5 (amended): the already-confirmed one-room booking
re-confirms successfully, leaving the booking unchanged and appending a
second (duplicate) entry to the guest history. -/
theorem create_booking_appends_per_call_witness :
    bkg58c.create_booking guest1 = .ok (bkg58c, guest2, true) :=
  (create_booking_appends_per_call bkg58c guest1 (by decide)).2 (by rfl)

/-- C6: confirming a booking with an empty room list fails with
`EmptyBookingError` producing no new state; with at least one room it sets
the confirmed flag, appends the booking to the guest reservation history,
and returns `True`. -/
theorem create_booking_empty_vs_nonempty (b : Booking) (g : Guest) :
    (b.rooms = [] → b.create_booking g = .error .emptyBooking)
    ∧ (b.rooms ≠ [] →
        b.create_booking g =
          .ok ({ b with is_confirmed := true },
               { g with reservations := g.reservations ++ [b.booking_id] },
               true)) := by
  constructor
  · intro he
    unfold Booking.create_booking
    rw [he]
    rfl
  · intro h
    have hne : b.rooms.isEmpty = false := by
      cases hr : b.rooms with
      | nil => exact absurd hr h
      | cons a l => rfl
    unfold Booking.create_booking Guest.add_reservation
    rw [hne]
    rfl

/-- Witness for C6: the fresh (room-less) scenario booking fails to
confirm with `emptyBooking`; after its room is attached it confirms,
setting the flag and appending the booking id to the guest history. -/
theorem create_booking_empty_vs_nonempty_witness :
    bkg58.create_booking guest0 = .error .emptyBooking
    ∧ bkg58r.create_booking guest0 = .ok (bkg58c, guest1, true) :=
  ⟨(create_booking_empty_vs_nonempty bkg58 guest0).1 (by rfl),
   (create_booking_empty_vs_nonempty bkg58r guest0).2 (by decide)⟩

/-- C7: canceling an already-canceled booking returns `False` and leaves
the booking untouched, canceling otherwise sets the canceled flag, clears
the confirmed flag and returns `True`; removing a room that is not in the
room list returns `False` without raising and leaves the booking — its
room list and total cost included — untouched. -/
theorem cancel_and_remove_noops (b : Booking) (room : Room) :
    (b.is_canceled = true → b.cancel_booking = (b, false))
    ∧ (b.is_canceled = false →
        b.cancel_booking =
          ({ b with is_canceled := true, is_confirmed := false }, true))
    ∧ (room ∉ b.rooms → b.remove_room room = (b, false)) := by
  refine ⟨?_, ?_, ?_⟩
  · intro hc
    unfold Booking.cancel_booking
    rw [hc]
    rfl
  · intro hc
    unfold Booking.cancel_booking
    rw [hc]
    rfl
  · intro hmem
    unfold Booking.remove_room
    rw [if_neg hmem]

/-- Witness for C7: canceling the canceled variant is a reported no-op,
canceling the confirmed variant flips both flags, and removing the room
from the room-less booking is a reported no-op. -/
theorem cancel_and_remove_noops_witness :
    bkg58x.cancel_booking = (bkg58x, false)
    ∧ bkg58c.cancel_booking =
        ({ bkg58c with is_canceled := true, is_confirmed := false }, true)
    ∧ bkg58.remove_room room150r = (bkg58, false) :=
  ⟨(cancel_and_remove_noops bkg58x room150r).1 (by rfl),
   (cancel_and_remove_noops bkg58c room150r).2.1 (by rfl),
   (cancel_and_remove_noops bkg58 room150r).2.2 (by decide)⟩

/-- C8: the per-room interval ledger only grows — `cancel_booking` leaves
the booking room list (and therefore every attached room ledger value)
untouched, `remove_room` at most drops rooms from the aggregate list
without altering any room value (the result is a sublist of the old list,
so every remaining room keeps its interval list, and the removed room
value itself is never modified), and `add_booking` — the only operation
that produces a room with a different ledger — extends the old interval
list by exactly the appended request, never removing an entry. -/
theorem ledger_never_shrinks (b : Booking) (room r : Room) (ci co : Int) :
    (b.cancel_booking).1.rooms = b.rooms
    ∧ List.Sublist ((b.remove_room room).1.rooms) b.rooms
    ∧ (∀ r' t, r.add_booking ci co = .ok (r', t) →
        r'.bookings = r.bookings ++ [(ci, co)]) := by
  refine ⟨?_, ?_, ?_⟩
  · unfold Booking.cancel_booking
    split <;> rfl
  · unfold Booking.remove_room
    split
    · exact List.erase_sublist room b.rooms
    · exact List.Sublist.refl b.rooms
  · intro r' t h
    unfold Room.add_booking at h
    cases hc : r.check_availability ci co with
    | error e => rw [hc] at h; cases h
    | ok av =>
      rw [hc] at h
      cases av with
      | false => cases h
      | true =>
        simp only [Except.ok.injEq, Prod.mk.injEq] at h
        rw [← h.1]

/-- Witness for C8: canceling the confirmed scenario booking keeps its
room list, removing its room only shrinks the aggregate list, and the
accepted request `[8, 10)` extends the ledger `[(5, 8)]` by exactly that
interval. -/
theorem ledger_never_shrinks_witness :
    (bkg58c.cancel_booking).1.rooms = bkg58c.rooms
    ∧ List.Sublist ((bkg58r.remove_room room150r).1.rooms) bkg58r.rooms
    ∧ ({ room150r with bookings := room150r.bookings ++ [(8, 10)] }).bookings =
        room150r.bookings ++ [(8, 10)] :=
  ⟨(ledger_never_shrinks bkg58c room150r room150r 8 10).1,
   (ledger_never_shrinks bkg58r room150r room150r 8 10).2.1,
   (ledger_never_shrinks bkg58c room150r room150r 8 10).2.2
      { room150r with bookings := room150r.bookings ++ [(8, 10)] } true (by rfl)⟩

/-- C9: a request whose check-in is not strictly before its check-out is
rejected with `InvalidRangeError` by `check_availability`, hence by
`add_booking`, and hence by the aggregate path `add_room` when the
booking dates are inverted — in every case before any mutation, and the
range is never silently corrected. -/
theorem invalid_range_rejected (r : Room) (ci co : Int) (b : Booking)
    (room : Room) (h : co ≤ ci) :
    r.check_availability ci co = .error .invalidRange
    ∧ r.add_booking ci co = .error .invalidRange
    ∧ (b.check_out_date ≤ b.check_in_date →
        b.add_room room = .error .invalidRange) := by
  have hchk : r.check_availability ci co = .error .invalidRange := by
    unfold Room.check_availability
    rw [if_pos h]
  refine ⟨hchk, ?_, ?_⟩
  · unfold Room.add_booking
    rw [hchk]
  · intro hb
    have hchk2 : room.check_availability b.check_in_date b.check_out_date =
        .error .invalidRange := by
      unfold Room.check_availability
      rw [if_pos hb]
    unfold Booking.add_room
    rw [hchk2]

/-- Witness for C9: the degenerate request `[8, 8)` and a booking with the
inverted dates `[10, 7)` are all rejected with the range error. -/
theorem invalid_range_rejected_witness :
    room150r.check_availability 8 8 = .error .invalidRange
    ∧ room150r.add_booking 8 8 = .error .invalidRange
    ∧ (Booking.init 3 10 7).add_room room150r = .error .invalidRange :=
  ⟨(invalid_range_rejected room150r 8 8 (Booking.init 3 10 7) room150r
      (by decide)).1,
   (invalid_range_rejected room150r 8 8 (Booking.init 3 10 7) room150r
      (by decide)).2.1,
   (invalid_range_rejected room150r 8 8 (Booking.init 3 10 7) room150r
      (by decide)).2.2 (by decide)⟩

/-- C10: `create_booking` never inspects the canceled flag — on a canceled
booking with at least one room it succeeds, returns `True`, appends a
further entry to the guest history, and leaves the booking with the
confirmed and canceled flags both set at once, a Canceled-to-Confirmed
transition outside the Pending/Confirmed/Canceled state machine of the
spec. -/
theorem create_booking_ignores_cancel (b : Booking) (g : Guest)
    (h : b.rooms ≠ []) (hc : b.is_canceled = true) :
    b.create_booking g =
      .ok ({ b with is_confirmed := true },
           { g with reservations := g.reservations ++ [b.booking_id] }, true)
    ∧ ({ b with is_confirmed := true }).is_confirmed = true
    ∧ ({ b with is_confirmed := true }).is_canceled = true := by
  have hne : b.rooms.isEmpty = false := by
    cases hr : b.rooms with
    | nil => exact absurd hr h
    | cons a l => rfl
  refine ⟨?_, rfl, hc⟩
  unfold Booking.create_booking Guest.add_reservation
  rw [hne]
  rfl

/-- Witness for C10: confirming the canceled one-room scenario booking
succeeds and yields a booking that is confirmed and canceled at once. -/
theorem create_booking_ignores_cancel_witness :
    bkg58x.create_booking guest0 =
      .ok ({ bkg58x with is_confirmed := true }, guest1, true)
    ∧ ({ bkg58x with is_confirmed := true }).is_canceled = true :=
  ⟨(create_booking_ignores_cancel bkg58x guest0 (by decide) (by rfl)).1,
   (create_booking_ignores_cancel bkg58x guest0 (by decide) (by rfl)).2.2⟩
